import Mathlib

set_option maxRecDepth 4000

/-! Shallow embedding of the GigE Vision device control core of
    `src/arvgvdevice.c` (Aravis `ArvGvDevice`).

    The control channel (`_send_cmd_and_receive_ack`), the block I/O layer
    (`arv_gv_device_read_memory` / `arv_gv_device_write_memory`), the heartbeat
    thread, the MTU probe (`auto_packet_size`) and the schema bootstrap
    (`_load_genicam`, `_get_genicam_xml`) are translated into executable Lean
    functions.  External collaborators (the UDP socket, the GenICam feature
    evaluator, the clock) are modelled as environment inputs: receive traces,
    oracles for per-chunk exchange outcomes, test-packet outcomes and feature
    readbacks.  Machine integers are Nat with an explicit modulus where the C
    unsigned arithmetic can wrap. -/

namespace ArvGv

/-! ## Packet codec (arvgvcp)

    The codec helpers live in `arvgvcp` which is not part of the source under
    review; the fields and sizes below are modelled from the spec (sections 4.1
    and 6): an 8-byte header carrying packet type, error-flags, command and
    16-bit identifier, followed by the data payload; the pending-ack carries a
    big-endian milliseconds field right after the header. -/

/-- Size in bytes of `ArvGvcpHeader`. -/
def headerSize : Nat := 8

/-- Commands accepted by `_send_cmd_and_receive_ack` (the four request kinds). -/
inductive GvcpCommand
  | readMemoryCmd
  | writeMemoryCmd
  | readRegisterCmd
  | writeRegisterCmd
deriving DecidableEq, Repr

/-- The command code carried by a received acknowledge frame.  Only the
    distinctions the source tests for are modelled: the four ack codes, the
    pending-ack code, and anything else. -/
inductive GvcpAckCommand
  | readMemoryAck
  | writeMemoryAck
  | readRegisterAck
  | writeRegisterAck
  | pendingAck
  | otherCommand
deriving DecidableEq, Repr

/-- The packet-type field of a received frame, as classified by
    `arv_gvcp_packet_get_packet_type`: normal ack, error ack, unknown-error
    ack, or any other value. -/
inductive GvcpPacketType
  | ack
  | error
  | unknownError
  | other
deriving DecidableEq, Repr

/-- Expected ack command for each request command (first switch of
    `_send_cmd_and_receive_ack`, src/arvgvdevice.c:127-150). -/
def expected_ack_command : GvcpCommand → GvcpAckCommand
  | .readMemoryCmd => .readMemoryAck
  | .writeMemoryCmd => .writeMemoryAck
  | .readRegisterCmd => .readRegisterAck
  | .writeRegisterCmd => .writeRegisterAck

/-- Expected ack size for each request command (same switch):
    `arv_gvcp_packet_get_read_memory_ack_size (size)` is header plus payload,
    the register and write acks carry one 32-bit word. -/
def expected_ack_size : GvcpCommand → Nat → Nat
  | .readMemoryCmd, size => headerSize + size
  | .writeMemoryCmd, _ => headerSize + 4
  | .readRegisterCmd, _ => headerSize + 4
  | .writeRegisterCmd, _ => headerSize + 4

/-- `arv_gvcp_packet_get_pending_ack_size ()`: header plus the 32-bit
    timeout-extension field. -/
def pending_ack_size : Nat := headerSize + 4

/-- `arv_gvcp_next_packet_id`: previous plus one on 16 bits, with 0 skipped on
    wraparound (modelled from the spec, section 4.1; the helper lives in
    arvgvcp.c). -/
def arv_gvcp_next_packet_id (packet_id : Nat) : Nat :=
  let n := (packet_id + 1) % 65536
  if n = 0 then 1 else n

/-- Big-endian 32-bit read of the first four payload bytes (used for the
    pending-ack timeout field and the read-register ack value). -/
def be_32 (l : List Nat) : Nat :=
  (l.getD 0 0 % 256) * 16777216 + (l.getD 1 0 % 256) * 65536 +
    (l.getD 2 0 % 256) * 256 + l.getD 3 0 % 256

/-- A received datagram as the receive path of `_send_cmd_and_receive_ack`
    observes it.  `count` is the number of bytes `g_socket_receive` returned
    (it may be smaller than a full header: such frames are rejected by the
    `count >= sizeof (ArvGvcpHeader)` test).  `payload` holds the data bytes
    after the header; `flags` is the error-flags header field. -/
structure GvcpAckPacket where
  packetType : GvcpPacketType
  flags : Nat
  command : GvcpAckCommand
  packetId : Nat
  count : Nat
  payload : List Nat
deriving DecidableEq, Repr

/-- `arv_gvcp_packet_get_pending_ack_timeout`: the big-endian 32-bit field
    following the header. -/
def arv_gvcp_packet_get_pending_ack_timeout (d : GvcpAckPacket) : Nat :=
  be_32 d.payload

/-- `arv_gvcp_packet_get_read_register_ack_value`: the big-endian 32-bit value
    following the header. -/
def arv_gvcp_packet_get_read_register_ack_value (d : GvcpAckPacket) : Nat :=
  be_32 d.payload

/-- `memcpy (buffer, data, size)` from an ack payload: the first `size` bytes,
    zero-padded when the modelled payload list is shorter. -/
def take_pad (l : List Nat) (n : Nat) : List Nat :=
  l.take n ++ List.replicate (n - l.length) 0

/-! ## Control channel: `_send_cmd_and_receive_ack` (src/arvgvdevice.c:112-326)

    Time is a monotonic millisecond clock.  The environment is a trace of poll
    outcomes: each iteration of the receive loop consumes one event; an empty
    trace means every further poll expires.  A datagram event carries the delay
    after which the frame became readable; the waiting time is capped by the
    poll timeout of that iteration. -/

/-- One outcome of the `g_poll` / `g_socket_receive` pair in the receive loop:
    either the poll expired with nothing readable, or a datagram arrived after
    `arrival` ms. -/
inductive RecvEvent
  | timeout
  | datagram (d : GvcpAckPacket) (arrival : Nat)
deriving DecidableEq, Repr

/-- How the receive loop treats a frame that passed the header-size test:
    the nested conditionals of src/arvgvdevice.c:212-253. -/
inductive AckClass
  | tooShort
  | pending
  | conclusive
  | ignored
deriving DecidableEq, Repr

/-- Classification of a received frame (src/arvgvdevice.c:212-253): the
    pending-ack test first (command code and minimum size, identifier not
    checked), then the error/unknown-error branch (command and identifier must
    match), then the normal-ack branch (type, command, identifier and minimum
    ack size must match). -/
def classify_ack (expected : GvcpAckCommand) (pid ackSize : Nat)
    (d : GvcpAckPacket) : AckClass :=
  if d.count < headerSize then .tooShort
  else if d.command = .pendingAck ∧ pending_ack_size ≤ d.count then .pending
  else if d.packetType = .error ∨ d.packetType = .unknownError then
    if d.command = expected ∧ d.packetId = pid then .conclusive else .ignored
  else if d.packetType = .ack ∧ d.command = expected ∧ d.packetId = pid ∧
      ackSize ≤ d.count then .conclusive
  else .ignored

/-- Result of one receive loop (one transmission attempt): the conclusive
    frame if one arrived, the clock on exit, and the unconsumed events. -/
structure RecvOut where
  answer : Option GvcpAckPacket
  now : Nat
  rest : List RecvEvent
deriving DecidableEq, Repr

/-- The receive loop of `_send_cmd_and_receive_ack` (src/arvgvdevice.c:196-263).
    `deadline` is `timeout_stop_ms`; each iteration recomputes
    `timeout_ms := deadline - now` clamped at zero.  A pending-ack resets the
    deadline to now plus its timeout-extension field and always continues; a
    conclusive frame exits; anything else continues exactly when `timeout_ms`
    was positive at the start of the iteration (the do-while condition
    `pending_ack || (!expected_answer && timeout_ms > 0)`). -/
def receive_loop (expected : GvcpAckCommand) (pid ackSize : Nat) :
    Nat → Nat → List RecvEvent → RecvOut
  | deadline, now, [] => ⟨none, now + (deadline - now), []⟩
  | deadline, now, .timeout :: rest =>
    let tm := deadline - now
    if 0 < tm then receive_loop expected pid ackSize deadline (now + tm) rest
    else ⟨none, now, rest⟩
  | deadline, now, .datagram d arrival :: rest =>
    let tm := deadline - now
    let now2 := now + min arrival tm
    match classify_ack expected pid ackSize d with
    | .pending =>
      receive_loop expected pid ackSize
        (now2 + arv_gvcp_packet_get_pending_ack_timeout d) now2 rest
    | .conclusive => ⟨some d, now2, rest⟩
    | .tooShort =>
      if 0 < tm then receive_loop expected pid ackSize deadline now2 rest
      else ⟨none, now2, rest⟩
    | .ignored =>
      if 0 < tm then receive_loop expected pid ackSize deadline now2 rest
      else ⟨none, now2, rest⟩

/-- Result of the retry loop: the conclusive frame if any attempt got one,
    the number of transmissions performed, the clock and remaining events. -/
structure RetryOut where
  answer : Option GvcpAckPacket
  n_sends : Nat
  now : Nat
  rest : List RecvEvent
deriving DecidableEq, Repr

/-- The retry loop of `_send_cmd_and_receive_ack` (src/arvgvdevice.c:179-290),
    a do-while: at least one attempt runs, and a failed attempt is repeated
    while `n_retries < gvcp_n_retries`.  `further` is the number of attempts
    still allowed after the current one (`gvcp_n_retries - 1` initially);
    `sendOk idx` tells whether the idx-th `g_socket_send_to` succeeds. -/
def retry_loop (expected : GvcpAckCommand) (pid ackSize tmo : Nat)
    (sendOk : Nat → Bool) :
    Nat → Nat → Nat → List RecvEvent → RetryOut
  | further, idx, now, evs =>
    if sendOk idx then
      let r := receive_loop expected pid ackSize (now + tmo) now evs
      match r.answer with
      | some d => ⟨some d, idx + 1, r.now, r.rest⟩
      | none =>
        match further with
        | 0 => ⟨none, idx + 1, r.now, r.rest⟩
        | f + 1 => retry_loop expected pid ackSize tmo sendOk f (idx + 1) r.now r.rest
    else
      match further with
      | 0 => ⟨none, idx + 1, now, evs⟩
      | f + 1 => retry_loop expected pid ackSize tmo sendOk f (idx + 1) now evs

/-- The per-session exchange parameters of `ArvGvDeviceIOData` used by the
    control channel (src/arvgvdevice.c:56-73). -/
structure ArvGvDeviceIOData where
  packet_id : Nat
  gvcp_n_retries : Nat
  gvcp_timeout_ms : Nat
deriving DecidableEq, Repr

/-- Environment of one exchange: send outcomes, start time, receive trace. -/
structure ExchangeEnv where
  sendOk : Nat → Bool
  start : Nat
  events : List RecvEvent

/-- Errors surfaced by the exchange path (src/arvgvdevice.c:314-322). -/
inductive ArvDeviceError
  | protocolError (flags : Nat)
  | timeoutError
deriving DecidableEq, Repr

/-- Caller-visible outcome of `_send_cmd_and_receive_ack`.  `mem_out` is the
    caller buffer after a read-memory exchange (its prior content otherwise),
    `reg_out` likewise for read-register; `error_out` is what the call stores
    into a fresh `GError` placeholder (`none` when it is left untouched). -/
structure ExchangeResult where
  success : Bool
  answer : Option GvcpAckPacket
  mem_out : List Nat
  reg_out : Nat
  error_out : Option ArvDeviceError
  n_sends : Nat
  used_packet_id : Nat
deriving Repr

/-- The `command_error` variable after the retry loop: the error-flags field
    of the conclusive frame when it was an error or unknown-error ack, and
    `ARV_GVCP_ERROR_NONE` (0) otherwise (src/arvgvdevice.c:124, 235-243). -/
def ack_command_error : Option GvcpAckPacket → Nat
  | some d =>
    if d.packetType = .error ∨ d.packetType = .unknownError then d.flags else 0
  | none => 0

/-- Data bytes of the conclusive frame (empty when there is none). -/
def ack_payload : Option GvcpAckPacket → List Nat
  | some d => d.payload
  | none => []

/-- Register value of the conclusive frame (0 when there is none). -/
def ack_register_value : Option GvcpAckPacket → Nat
  | some d => arv_gvcp_packet_get_read_register_ack_value d
  | none => 0

/-- The retry loop of one exchange, with its parameters drawn from the session
    state: the advanced identifier, the expected ack command and size, and the
    configured retry count and per-attempt timeout. -/
def exchange_retry (io : ArvGvDeviceIOData) (command : GvcpCommand)
    (size : Nat) (env : ExchangeEnv) : RetryOut :=
  retry_loop (expected_ack_command command)
    (arv_gvcp_next_packet_id io.packet_id) (expected_ack_size command size)
    io.gvcp_timeout_ms env.sendOk (io.gvcp_n_retries - 1) 0 env.start
    env.events

/-- `_send_cmd_and_receive_ack` (src/arvgvdevice.c:112-326).  The identifier is
    advanced once; the retry loop runs; `command_error` is the error-flags
    field of a conclusive error ack and `ARV_GVCP_ERROR_NONE` (0) otherwise;
    the final success requires a conclusive frame and `command_error == 0`
    (line 296); on success a read-memory exchange copies the payload and a
    read-register exchange the 32-bit value (lines 267-282); on failure the
    read buffers are zeroed and the error stored into an empty placeholder is
    protocol-error when error flags were recorded, timeout otherwise
    (lines 298-323). -/
def send_cmd_and_receive_ack (io : ArvGvDeviceIOData) (command : GvcpCommand)
    (size : Nat) (memInit : List Nat) (regInit : Nat) (env : ExchangeEnv) :
    ExchangeResult :=
  let r := exchange_retry io command size env
  if r.answer.isSome ∧ ack_command_error r.answer = 0 then
    ⟨true, r.answer,
      (if command = .readMemoryCmd then take_pad (ack_payload r.answer) size
       else memInit),
      (if command = .readRegisterCmd then ack_register_value r.answer
       else regInit),
      none, r.n_sends, arv_gvcp_next_packet_id io.packet_id⟩
  else
    ⟨false, r.answer,
      (if command = .readMemoryCmd then List.replicate size 0 else memInit),
      (if command = .readRegisterCmd then 0 else regInit),
      some (if ack_command_error r.answer ≠ 0 then
          .protocolError (ack_command_error r.answer)
        else .timeoutError),
      r.n_sends, arv_gvcp_next_packet_id io.packet_id⟩

/-! ## Block I/O: chunked memory transfers (src/arvgvdevice.c:356-390)

    Both `arv_gv_device_read_memory` and `arv_gv_device_write_memory` run
    `for (i = 0; i < (size + ARV_GVCP_DATA_SIZE_MAX - 1) / ARV_GVCP_DATA_SIZE_MAX; i++)`
    over guint32 arithmetic, so the chunk-count expression is reduced modulo
    2^32; the per-chunk exchange is abstracted into an oracle giving, for chunk
    index i, either the data read (for reads) or an error. -/

/-- Outcome of a single `_read_memory` chunk exchange. -/
inductive ChunkOutcome
  | ok (data : List Nat)
  | fail (e : ArvDeviceError)

/-- The loop bound `(size + ARV_GVCP_DATA_SIZE_MAX - 1) / ARV_GVCP_DATA_SIZE_MAX`
    in guint32 arithmetic. -/
def chunk_count (size dmax : Nat) : Nat :=
  ((size + dmax - 1) % 4294967296) / dmax

/-- Store `data` into `buf` at byte offset `off` (`memcpy` into the caller
    buffer slice). -/
def list_store (buf : List Nat) (off : Nat) (data : List Nat) : List Nat :=
  buf.take off ++ data ++ buf.drop (off + data.length)

/-- Result of a block read or write: overall success, the caller buffer, what
    was stored in the error placeholder, and the `(address, size)` of each
    chunk exchange actually issued, in order. -/
structure BlockIOResult where
  success : Bool
  buffer : List Nat
  error_out : Option ArvDeviceError
  issued : List (Nat × Nat)
deriving Repr, DecidableEq

/-- The read-memory chunk loop (src/arvgvdevice.c:363-369).  `remaining` is the
    number of loop iterations left; chunk i reads
    `min dmax (size - i*dmax)` bytes at `address + i*dmax` (guint64).  On chunk
    failure `_read_memory` has zeroed that slice of the caller buffer
    (src/arvgvdevice.c:300-301) and the loop returns FALSE at once. -/
def read_memory_loop (oracle : Nat → ChunkOutcome) (address size dmax : Nat) :
    Nat → Nat → List Nat → List (Nat × Nat) → BlockIOResult
  | 0, _, buf, iss => ⟨true, buf, none, iss⟩
  | remaining + 1, i, buf, iss =>
    let blk := min dmax (size - i * dmax)
    let adr := (address + i * dmax) % 18446744073709551616
    match oracle i with
    | .ok data =>
      read_memory_loop oracle address size dmax remaining (i + 1)
        (list_store buf (i * dmax) (data.take blk)) (iss ++ [(adr, blk)])
    | .fail e =>
      ⟨false, list_store buf (i * dmax) (List.replicate blk 0), some e,
        iss ++ [(adr, blk)]⟩

/-- `arv_gv_device_read_memory` (src/arvgvdevice.c:356-372). -/
def arv_gv_device_read_memory (oracle : Nat → ChunkOutcome)
    (address size dmax : Nat) (buffer : List Nat) : BlockIOResult :=
  read_memory_loop oracle address size dmax (chunk_count size dmax) 0 buffer []

/-- The write-memory chunk loop (src/arvgvdevice.c:381-387); the oracle gives
    `none` when chunk i succeeds and the error otherwise. -/
def write_memory_go (oracle : Nat → Option ArvDeviceError)
    (address size dmax : Nat) (buffer : List Nat) :
    Nat → Nat → List (Nat × Nat) → BlockIOResult
  | 0, _, iss => ⟨true, buffer, none, iss⟩
  | remaining + 1, i, iss =>
    let blk := min dmax (size - i * dmax)
    let adr := (address + i * dmax) % 18446744073709551616
    match oracle i with
    | none => write_memory_go oracle address size dmax buffer remaining (i + 1)
        (iss ++ [(adr, blk)])
    | some e => ⟨false, buffer, some e, iss ++ [(adr, blk)]⟩

/-- `arv_gv_device_write_memory` (src/arvgvdevice.c:374-390). -/
def arv_gv_device_write_memory (oracle : Nat → Option ArvDeviceError)
    (address size dmax : Nat) (buffer : List Nat) : BlockIOResult :=
  write_memory_go oracle address size dmax buffer (chunk_count size dmax) 0 []

/-- The chunk list described by the spec: `n` chunks, chunk i at
    `(address + i*dmax) mod 2^64` with length `min dmax (size - i*dmax)`. -/
def chunk_list (address size dmax n : Nat) : List (Nat × Nat) :=
  (List.range n).map fun i =>
    ((address + i * dmax) % 18446744073709551616, min dmax (size - i * dmax))

/-- The chunk descriptors issued by `remaining` loop iterations starting at
    chunk index `start` (same entries as `chunk_list`, recursion-friendly). -/
def chunk_seg (address size dmax : Nat) : Nat → Nat → List (Nat × Nat)
  | _, 0 => []
  | start, remaining + 1 =>
    ((address + start * dmax) % 18446744073709551616,
      min dmax (size - start * dmax)) ::
      chunk_seg address size dmax (start + 1) remaining

/-- First failing chunk index (absolute), scanning `remaining` chunks starting
    at index `start`, for a read oracle. -/
def find_fail_read (oracle : Nat → ChunkOutcome) :
    Nat → Nat → Option (Nat × ArvDeviceError)
  | _, 0 => none
  | start, remaining + 1 =>
    match oracle start with
    | .ok _ => find_fail_read oracle (start + 1) remaining
    | .fail e => some (start, e)

/-- First failing chunk index for a write oracle. -/
def find_fail_write (oracle : Nat → Option ArvDeviceError) :
    Nat → Nat → Option (Nat × ArvDeviceError)
  | _, 0 => none
  | start, remaining + 1 =>
    match oracle start with
    | none => find_fail_write oracle (start + 1) remaining
    | some e => some (start, e)

/-! ## Heartbeat thread (src/arvgvdevice.c:418-479)

    Each loop iteration sleeps, then, when `is_controller` is set, reads the
    privilege register (the retry-on-transient-failure loop is abstracted into
    the final `value` it leaves behind; `_read_register` zeroes the output on
    failure, so a fully failed read leaves 0).  The take-control path
    (src/arvgvdevice.c:493-510) re-sets the flag from outside the thread. -/

/-- External events driving the controller flag: one heartbeat iteration
    (cancellation state and the privilege value the read loop produced), or a
    successful `arv_gv_device_take_control` from the application. -/
inductive HeartbeatEvent
  | beat (cancelled : Bool) (value : Nat)
  | retake
deriving DecidableEq, Repr

/-- One step of the heartbeat state machine over the `is_controller` flag;
    returns the new flag and the number of control-lost notifications emitted
    (src/arvgvdevice.c:438-470). -/
def heartbeat_step (mask : Nat) : Bool → HeartbeatEvent → Bool × Nat
  | _, .retake => (true, 0)
  | isController, .beat cancelled value =>
    if isController then
      if cancelled then (false, 0)
      else if value &&& mask = 0 then (false, 1)
      else (true, 0)
    else (isController, 0)

/-- Run of the heartbeat state machine: final flag and total number of
    control-lost notifications emitted. -/
def heartbeat_run (mask : Nat) : Bool → List HeartbeatEvent → Bool × Nat
  | isController, [] => (isController, 0)
  | isController, e :: rest =>
    let s := heartbeat_step mask isController e
    let r := heartbeat_run mask s.1 rest
    (r.1, s.2 + r.2)

/-! ## MTU probe: `auto_packet_size` (src/arvgvdevice.c:622-751)

    The device is abstracted into: the GevSCPSPacketSize feature bounds,
    increment and current value; a `readback` function giving the value the
    feature reports after a set (the device may quantize); and a `test`
    predicate giving the outcome of `test_packet_check` for a size. -/

/-- Device-side environment of the MTU probe. -/
structure ProbePacketEnv where
  has_fire_test : Bool
  inc_feature : Nat
  current_value : Nat
  bound_min : Nat
  bound_max : Nat
  gvsp_min : Nat
  gvsp_max : Nat
  test : Nat → Bool
  readback : Nat → Nat

/-- The bisection loop of `auto_packet_size` (src/arvgvdevice.c:705-731).
    State: working `min_size`/`max_size`, the best size found (`packet_size`),
    the candidate (`current`) and the previous readback (`last`); `acc` is the
    list of accepted sizes in order.  The loop breaks when the candidate equals
    the previous one or `min_size + inc >= max_size`; otherwise it writes the
    candidate, reads it back, tests it, raises the floor on success (recording
    the size, and stopping outright at `max_size`) or lowers the ceiling on
    failure, and picks `min + (((max - min)/2 + 1)/inc)*inc` next. -/
def auto_packet_size_loop (test : Nat → Bool) (readback : Nat → Nat)
    (inc : Nat) :
    Nat → Nat → Nat → Nat → Nat → Nat → List Nat → Nat × List Nat
  | 0, _, _, packet_size, _, _, acc => (packet_size, acc)
  | fuel + 1, min_size, max_size, packet_size, current, last, acc =>
    if current = last ∨ max_size ≤ min_size + inc then (packet_size, acc)
    else
      let c := readback current
      if test c then
        if c = max_size then (c, acc ++ [c])
        else
          auto_packet_size_loop test readback inc fuel c max_size c
            (c + (((max_size - c) / 2 + 1) / inc) * inc) c (acc ++ [c])
      else
        auto_packet_size_loop test readback inc fuel min_size c packet_size
          (min_size + (((c - min_size) / 2 + 1) / inc) * inc) c acc

/-- `auto_packet_size` (src/arvgvdevice.c:622-751): returns the final packet
    size together with the accepted sizes of the bisection.  Without the
    fire-test feature, or with invalid clamped bounds
    (`max_size < min_size || inc > max_size - min_size`), the current feature
    value is returned untouched (lines 646-664); when the pre-check of the
    current size succeeds and `exit_early` is set the current value is kept
    (lines 693-700); otherwise the bisection runs and its best size is written
    back and returned. -/
def auto_packet_size (env : ProbePacketEnv) (exit_early : Bool) (fuel : Nat) :
    Nat × List Nat :=
  if env.has_fire_test then
    let inc := if env.inc_feature < 1 then 1 else env.inc_feature
    let max_size := min env.gvsp_max env.bound_max
    let min_size := max env.gvsp_min env.bound_min
    if max_size < min_size ∨ max_size - min_size < inc then
      (env.current_value, [])
    else
      if env.test env.current_value && exit_early then (env.current_value, [])
      else
        auto_packet_size_loop env.test env.readback inc fuel min_size max_size
          env.current_value env.current_value 0 []
  else (env.current_value, [])

/-! ## Schema bootstrap (src/arvgvdevice.c:1160-1302) -/

/-- `g_ascii_tolower` on a byte. -/
def g_ascii_tolower (c : Nat) : Nat :=
  if 65 ≤ c ∧ c ≤ 90 then c + 32 else c

/-- `g_ascii_strcasecmp`: zero exactly on case-insensitive (ASCII) equality,
    otherwise the signed difference of the first differing folded bytes (a
    missing byte folds to the NUL terminator). -/
def g_ascii_strcasecmp : List Nat → List Nat → Int
  | [], [] => 0
  | [], b :: _ => 0 - Int.ofNat (g_ascii_tolower b)
  | a :: _, [] => Int.ofNat (g_ascii_tolower a)
  | a :: as, b :: bs =>
    if g_ascii_tolower a = g_ascii_tolower b then g_ascii_strcasecmp as bs
    else Int.ofNat (g_ascii_tolower a) - Int.ofNat (g_ascii_tolower b)

/-- Byte list of a scheme string. -/
def str_bytes (s : String) : List Nat :=
  s.toList.map Char.toNat

/-- Which fetch path `_load_genicam` takes for a scheme. -/
inductive GenicamFetch
  | fromFile
  | fromDeviceMemory
  | viaHttpFetcher
  | criticalEmpty
deriving DecidableEq, Repr

/-- The URL-scheme dispatch of `_load_genicam` (src/arvgvdevice.c:1184-1266),
    translated branch for branch: note that the third test is
    `g_ascii_strcasecmp (scheme, "http")` used directly as a truth value, so
    that branch is taken exactly when the comparison is nonzero. -/
def load_genicam_dispatch (scheme : String) : GenicamFetch :=
  if g_ascii_strcasecmp (str_bytes scheme) (str_bytes "file") = 0 then
    .fromFile
  else if g_ascii_strcasecmp (str_bytes scheme) (str_bytes "local") = 0 then
    .fromDeviceMemory
  else if g_ascii_strcasecmp (str_bytes scheme) (str_bytes "http") ≠ 0 then
    .viaHttpFetcher
  else .criticalEmpty

/-- Outcome of one `_load_genicam` call: the XML bytes it returned (or none)
    and the error it stored (or none).  The URL-register read failure path
    (src/arvgvdevice.c:1174-1175) returns no XML with the error set. -/
structure GenicamLoadResult where
  xml : Option (List Nat)
  err : Option ArvDeviceError
deriving DecidableEq, Repr

/-- The two XML URL slots. -/
inductive UrlSlot
  | slot0
  | slot1
deriving DecidableEq, Repr

/-- Which slots `_get_genicam_xml` loads (src/arvgvdevice.c:1289-1291): slot 1
    is attempted exactly when the slot-0 load returned no XML and left the
    error placeholder empty. -/
def genicam_url_attempts (r0 : GenicamLoadResult) : List UrlSlot :=
  if r0.xml = none ∧ r0.err = none then [.slot0, .slot1] else [.slot0]

/-- `_get_genicam_xml` on the uncached path (src/arvgvdevice.c:1286-1301):
    the slot-0 result, then possibly slot 1, then error propagation. -/
def get_genicam_xml (r0 r1 : GenicamLoadResult) :
    Option (List Nat) × Option ArvDeviceError :=
  let s := if r0.xml = none ∧ r0.err = none then r1 else r0
  match s.err with
  | some e => (none, some e)
  | none => (s.xml, none)

end ArvGv

namespace ArvGv

/-! ## Theorems about the embedded program -/

/-- Claim C1 (code bug).  The spec says a URL scheme equal (case-insensitively)
    to "http" is fetched via the external HTTP fetcher, and any scheme other
    than "file", "local" and "http" yields a critical diagnostic and no XML.
    The source tests `g_ascii_strcasecmp (scheme, "http")` without comparing to
    zero (src/arvgvdevice.c:1244), so the dispatch is inverted: the scheme
    "http" (any casing) lands in the critical-diagnostic branch, and an unknown
    scheme such as "ftp" lands in the HTTP-fetch branch, even though that
    branch's own diagnostic announces an unknown scheme. -/
theorem C1_http_scheme_dispatch_bug :
    load_genicam_dispatch "http" = .criticalEmpty ∧
    load_genicam_dispatch "HTTP" = .criticalEmpty ∧
    load_genicam_dispatch "ftp" = .viaHttpFetcher ∧
    load_genicam_dispatch "file" = .fromFile ∧
    load_genicam_dispatch "local" = .fromDeviceMemory := by
  refine ⟨rfl, rfl, rfl, rfl, rfl⟩

/-- Claim C2, counterexample.  A slot-0 load that fails with the error
    placeholder set (the URL-register read failure path,
    src/arvgvdevice.c:1174-1175) yields no XML, yet slot 1 is not attempted. -/
theorem C2_counterexample :
    (GenicamLoadResult.mk none (some ArvDeviceError.timeoutError)).xml = none ∧
    UrlSlot.slot1 ∉
      genicam_url_attempts ⟨none, some ArvDeviceError.timeoutError⟩ := by
  exact ⟨rfl, by decide⟩

/-- Claim C2, amended.  URL slot 1 is attempted exactly when the slot-0 load
    yields no XML and stored no error; when the slot-0 load stored an error,
    only slot 0 is attempted and that error is the reported failure
    (src/arvgvdevice.c:1289-1296). -/
theorem C2_slot1_fallback (r0 r1 : GenicamLoadResult) :
    (UrlSlot.slot1 ∈ genicam_url_attempts r0 ↔
      (r0.xml = none ∧ r0.err = none)) ∧
    (∀ e, r0.err = some e →
      genicam_url_attempts r0 = [UrlSlot.slot0] ∧
      get_genicam_xml r0 r1 = (none, some e)) := by
  constructor
  · by_cases h : r0.xml = none ∧ r0.err = none
    · unfold genicam_url_attempts
      rw [if_pos h]
      simp [h]
    · unfold genicam_url_attempts
      rw [if_neg h]
      exact iff_of_false (by simp) h
  · intro e he
    have hx : ¬ (r0.xml = none ∧ r0.err = none) := by
      rintro ⟨-, h2⟩
      rw [he] at h2
      cases h2
    refine ⟨by unfold genicam_url_attempts; rw [if_neg hx], ?_⟩
    unfold get_genicam_xml
    rw [if_neg hx]
    simp only [he]

/-- Claim C2, witness: a slot-0 result with the error set keeps the attempt
    list at slot 0 only and propagates the error. -/
theorem C2_slot1_fallback_witness :
    genicam_url_attempts ⟨none, some ArvDeviceError.timeoutError⟩ =
      [UrlSlot.slot0] ∧
    get_genicam_xml ⟨none, some ArvDeviceError.timeoutError⟩ ⟨some [60], none⟩ =
      (none, some ArvDeviceError.timeoutError) :=
  (C2_slot1_fallback ⟨none, some ArvDeviceError.timeoutError⟩
    ⟨some [60], none⟩).2 ArvDeviceError.timeoutError rfl

/-- Claim C7.  The MTU probe clamps the feature bounds to the protocol bounds
    (`max_size = min ARV_GVSP_MAXIMUM_PACKET_SIZE maximum`,
    `min_size = max ARV_GVSP_MINIMUM_PACKET_SIZE minimum`), and whenever the
    clamped maximum is below the clamped minimum or the increment exceeds their
    difference, no probe is attempted and the currently configured value is
    returned (src/arvgvdevice.c:652-664). -/
theorem C7_probe_invalid_bounds (env : ProbePacketEnv) (exit_early : Bool)
    (fuel : Nat)
    (hfeat : env.has_fire_test = true)
    (hinv : min env.gvsp_max env.bound_max < max env.gvsp_min env.bound_min ∨
      min env.gvsp_max env.bound_max - max env.gvsp_min env.bound_min <
        (if env.inc_feature < 1 then 1 else env.inc_feature)) :
    auto_packet_size env exit_early fuel = (env.current_value, []) := by
  unfold auto_packet_size
  rw [hfeat]
  simp only [if_true]
  rw [if_pos hinv]

/-- Claim C7, witness: clamped bounds [900, 700] are rejected and the current
    value 1500 is returned with no probe. -/
theorem C7_probe_invalid_bounds_witness :
    auto_packet_size ⟨true, 4, 1500, 900, 700, 576, 9000,
      fun _ => true, fun v => v⟩ false 32 = (1500, []) :=
  C7_probe_invalid_bounds _ false 32 rfl (by decide)

/-- Claim C9.  In a heartbeat iteration where the session is controller, the
    cancellable has not fired, and the privilege read left a value whose
    control and exclusive bits (the bits of `mask`) are all zero, exactly one
    control-lost notification is emitted and `is_controller` is cleared
    (src/arvgvdevice.c:454-467); afterwards, as long as no successful
    take-control occurs, the flag stays false and no further notification is
    emitted (the `if (io_data->is_controller)` guard, src/arvgvdevice.c:438). -/
theorem C9_control_lost_once (mask value : Nat)
    (trace : List HeartbeatEvent)
    (hv : value &&& mask = 0)
    (hnr : HeartbeatEvent.retake ∉ trace) :
    heartbeat_step mask true (.beat false value) = (false, 1) ∧
    heartbeat_run mask false trace = (false, 0) := by
  constructor
  · simp [heartbeat_step, hv]
  · induction trace with
    | nil => rfl
    | cons e rest ih =>
      have hne : e ≠ HeartbeatEvent.retake := by
        intro h
        exact hnr (h ▸ List.mem_cons_self e rest)
      have hnr2 : HeartbeatEvent.retake ∉ rest := fun h =>
        hnr (List.mem_cons_of_mem e h)
      cases e with
      | retake => exact absurd rfl hne
      | beat c v =>
        have hstep : heartbeat_step mask false (.beat c v) = (false, 0) := by
          simp [heartbeat_step]
        rw [heartbeat_run, hstep, ih hnr2]
        rfl

/-- Claim C9, witness: with mask 6 and a zero privilege value the step emits
    one notification and clears the flag, and two further iterations emit
    nothing. -/
theorem C9_control_lost_once_witness :
    heartbeat_step 6 true (.beat false 0) = (false, 1) ∧
    heartbeat_run 6 false [.beat false 8, .beat true 0] = (false, 0) :=
  C9_control_lost_once 6 0 [.beat false 8, .beat true 0] rfl (by decide)

/-- Claim C10.  A read-memory or write-memory call with size 0 runs zero chunk
    iterations (`(0 + dmax - 1) / dmax = 0`), issues no exchange, returns
    success, and leaves the caller buffer and the error placeholder untouched
    (src/arvgvdevice.c:363-371 and 381-389). -/
theorem C10_zero_size_noop (oracleR : Nat → ChunkOutcome)
    (oracleW : Nat → Option ArvDeviceError)
    (address dmax : Nat) (buffer : List Nat)
    (hd : 0 < dmax) (hle : dmax ≤ 4294967296) :
    arv_gv_device_read_memory oracleR address 0 dmax buffer =
      ⟨true, buffer, none, []⟩ ∧
    arv_gv_device_write_memory oracleW address 0 dmax buffer =
      ⟨true, buffer, none, []⟩ := by
  have hc : chunk_count 0 dmax = 0 := by
    unfold chunk_count
    have h1 : (0 + dmax - 1) % 4294967296 = dmax - 1 := by
      rw [Nat.zero_add]
      exact Nat.mod_eq_of_lt (by omega)
    rw [h1]
    exact Nat.div_eq_of_lt (by omega)
  constructor
  · unfold arv_gv_device_read_memory
    rw [hc]
    rfl
  · unfold arv_gv_device_write_memory
    rw [hc]
    rfl

/-- Claim C10, witness at `ARV_GVCP_DATA_SIZE_MAX = 512`. -/
theorem C10_zero_size_noop_witness :
    arv_gv_device_read_memory (fun _ => ChunkOutcome.ok [7]) 4096 0 512 [1, 2] =
      ⟨true, [1, 2], none, []⟩ ∧
    arv_gv_device_write_memory (fun _ => none) 4096 0 512 [1, 2] =
      ⟨true, [1, 2], none, []⟩ :=
  C10_zero_size_noop (fun _ => ChunkOutcome.ok [7]) (fun _ => none) 4096 512
    [1, 2] (by decide) (by decide)


/-- Unfolding helper: `chunk_seg` entries written with an explicit range map. -/
theorem chunk_seg_eq_map (address size dmax : Nat) :
    ∀ (n start : Nat),
      chunk_seg address size dmax start n = (List.range n).map (fun k =>
        ((address + (start + k) * dmax) % 18446744073709551616,
         min dmax (size - (start + k) * dmax))) := by
  intro n
  induction n with
  | zero => intro start; rfl
  | succ m ih =>
    intro start
    rw [chunk_seg, List.range_succ_eq_map, List.map_cons, List.map_map,
      ih (start + 1)]
    refine congrArg₂ _ (by simp) ?_
    refine List.map_congr_left fun k _ => ?_
    have h : start + Nat.succ k = start + 1 + k := by omega
    simp [Function.comp, h]

/-- The chunk lists of spec and loop agree. -/
theorem chunk_list_eq_seg (address size dmax n : Nat) :
    chunk_list address size dmax n = chunk_seg address size dmax 0 n := by
  rw [chunk_list, chunk_seg_eq_map]
  refine List.map_congr_left fun k _ => ?_
  simp

/-- Read-memory chunk loop, all chunks succeeding. -/
theorem read_memory_loop_ok (oracle : Nat → ChunkOutcome)
    (address size dmax : Nat) :
    ∀ (remaining i : Nat) (buf : List Nat) (iss : List (Nat × Nat)),
      (∀ k, k < remaining → ∃ data, oracle (i + k) = .ok data) →
      (read_memory_loop oracle address size dmax remaining i buf iss).success
          = true ∧
      (read_memory_loop oracle address size dmax remaining i buf iss).error_out
          = none ∧
      (read_memory_loop oracle address size dmax remaining i buf iss).issued
          = iss ++ chunk_seg address size dmax i remaining := by
  intro remaining
  induction remaining with
  | zero => intro i buf iss _; simp [read_memory_loop, chunk_seg]
  | succ m ih =>
    intro i buf iss h
    obtain ⟨data, hd⟩ := h 0 (Nat.succ_pos m)
    rw [Nat.add_zero] at hd
    have h2 : ∀ k, k < m → ∃ d, oracle (i + 1 + k) = .ok d := by
      intro k hk
      have := h (k + 1) (by omega)
      rwa [show i + (k + 1) = i + 1 + k by omega] at this
    have step : read_memory_loop oracle address size dmax (m + 1) i buf iss =
        read_memory_loop oracle address size dmax m (i + 1)
          (list_store buf (i * dmax)
            (data.take (min dmax (size - i * dmax))))
          (iss ++ [((address + i * dmax) % 18446744073709551616,
            min dmax (size - i * dmax))]) := by
      rw [read_memory_loop, hd]
    rw [step]
    refine ⟨(ih _ _ _ h2).1, (ih _ _ _ h2).2.1, ?_⟩
    rw [(ih _ _ _ h2).2.2, chunk_seg, List.append_assoc]
    rfl

/-- Read-memory chunk loop, first failure at relative index `t`. -/
theorem read_memory_loop_fail (oracle : Nat → ChunkOutcome)
    (address size dmax : Nat) :
    ∀ (t remaining i : Nat) (buf : List Nat) (iss : List (Nat × Nat))
      (e : ArvDeviceError),
      (∀ k, k < t → ∃ data, oracle (i + k) = .ok data) →
      oracle (i + t) = .fail e →
      t < remaining →
      (read_memory_loop oracle address size dmax remaining i buf iss).success
          = false ∧
      (read_memory_loop oracle address size dmax remaining i buf iss).error_out
          = some e ∧
      (read_memory_loop oracle address size dmax remaining i buf iss).issued
          = iss ++ chunk_seg address size dmax i (t + 1) := by
  intro t
  induction t with
  | zero =>
    intro remaining i buf iss e _ hf hr
    obtain ⟨r, rfl⟩ := Nat.exists_eq_succ_of_ne_zero (Nat.pos_iff_ne_zero.mp hr)
    rw [Nat.add_zero] at hf
    rw [read_memory_loop, hf]
    simp [chunk_seg]
  | succ u ih =>
    intro remaining i buf iss e h hf hr
    obtain ⟨r, rfl⟩ := Nat.exists_eq_succ_of_ne_zero
      (Nat.pos_iff_ne_zero.mp (Nat.lt_of_le_of_lt (Nat.zero_le _) hr))
    obtain ⟨data, hd⟩ := h 0 (Nat.succ_pos u)
    rw [Nat.add_zero] at hd
    have h2 : ∀ k, k < u → ∃ d, oracle (i + 1 + k) = .ok d := by
      intro k hk
      have := h (k + 1) (by omega)
      rwa [show i + (k + 1) = i + 1 + k by omega] at this
    have hf2 : oracle (i + 1 + u) = .fail e := by
      rwa [show i + (u + 1) = i + 1 + u by omega] at hf
    have step : read_memory_loop oracle address size dmax (r + 1) i buf iss =
        read_memory_loop oracle address size dmax r (i + 1)
          (list_store buf (i * dmax)
            (data.take (min dmax (size - i * dmax))))
          (iss ++ [((address + i * dmax) % 18446744073709551616,
            min dmax (size - i * dmax))]) := by
      rw [read_memory_loop, hd]
    rw [step]
    have hres := ih r (i + 1)
      (list_store buf (i * dmax) (data.take (min dmax (size - i * dmax))))
      (iss ++ [((address + i * dmax) % 18446744073709551616,
        min dmax (size - i * dmax))]) e h2 hf2 (by omega)
    refine ⟨hres.1, hres.2.1, ?_⟩
    rw [hres.2.2, chunk_seg, List.append_assoc]
    rfl

/-- Write-memory chunk loop, all chunks succeeding. -/
theorem write_memory_go_ok (oracle : Nat → Option ArvDeviceError)
    (address size dmax : Nat) (buffer : List Nat) :
    ∀ (remaining i : Nat) (iss : List (Nat × Nat)),
      (∀ k, k < remaining → oracle (i + k) = none) →
      write_memory_go oracle address size dmax buffer remaining i iss =
        ⟨true, buffer, none, iss ++ chunk_seg address size dmax i remaining⟩ := by
  intro remaining
  induction remaining with
  | zero => intro i iss _; simp [write_memory_go, chunk_seg]
  | succ m ih =>
    intro i iss h
    have hd : oracle i = none := by
      have := h 0 (Nat.succ_pos m)
      rwa [Nat.add_zero] at this
    have h2 : ∀ k, k < m → oracle (i + 1 + k) = none := by
      intro k hk
      have := h (k + 1) (by omega)
      rwa [show i + (k + 1) = i + 1 + k by omega] at this
    rw [write_memory_go, hd, ih (i + 1) _ h2, chunk_seg, List.append_assoc]
    rfl

/-- Write-memory chunk loop, first failure at relative index `t`. -/
theorem write_memory_go_fail (oracle : Nat → Option ArvDeviceError)
    (address size dmax : Nat) (buffer : List Nat) :
    ∀ (t remaining i : Nat) (iss : List (Nat × Nat)) (e : ArvDeviceError),
      (∀ k, k < t → oracle (i + k) = none) →
      oracle (i + t) = some e →
      t < remaining →
      write_memory_go oracle address size dmax buffer remaining i iss =
        ⟨false, buffer, some e,
          iss ++ chunk_seg address size dmax i (t + 1)⟩ := by
  intro t
  induction t with
  | zero =>
    intro remaining i iss e _ hf hr
    obtain ⟨r, rfl⟩ := Nat.exists_eq_succ_of_ne_zero (Nat.pos_iff_ne_zero.mp hr)
    rw [Nat.add_zero] at hf
    rw [write_memory_go, hf]
    simp [chunk_seg]
  | succ u ih =>
    intro remaining i iss e h hf hr
    obtain ⟨r, rfl⟩ := Nat.exists_eq_succ_of_ne_zero
      (Nat.pos_iff_ne_zero.mp (Nat.lt_of_le_of_lt (Nat.zero_le _) hr))
    have hd : oracle i = none := by
      have := h 0 (Nat.succ_pos u)
      rwa [Nat.add_zero] at this
    have h2 : ∀ k, k < u → oracle (i + 1 + k) = none := by
      intro k hk
      have := h (k + 1) (by omega)
      rwa [show i + (k + 1) = i + 1 + k by omega] at this
    have hf2 : oracle (i + 1 + u) = some e := by
      rwa [show i + (u + 1) = i + 1 + u by omega] at hf
    rw [write_memory_go, hd, ih r (i + 1) _ e h2 hf2 (by omega), chunk_seg,
      List.append_assoc]
    rfl

/-- Claim C6, counterexample.  The chunk count is computed in guint32
    arithmetic, so for `size = 2^32 - 1` the expression
    `(size + 512 - 1) / 512` wraps to `510 / 512 = 0`: the read performs no
    exchange at all and reports success, while the claim requires
    `ceil(size/512) = 8388608` chunk exchanges. -/
theorem C6_counterexample :
    (arv_gv_device_read_memory (fun _ => ChunkOutcome.ok []) 0 4294967295 512
      []).issued = [] ∧
    (4294967295 + 512 - 1) / 512 = 8388608 ∧
    (arv_gv_device_read_memory (fun _ => ChunkOutcome.ok []) 0 4294967295 512
      []).issued ≠ chunk_list 0 4294967295 512 ((4294967295 + 512 - 1) / 512) := by
  refine ⟨rfl, rfl, ?_⟩
  intro h
  have hl := congrArg List.length h
  rw [show (arv_gv_device_read_memory (fun _ => ChunkOutcome.ok []) 0 4294967295
      512 []).issued = [] from rfl, chunk_list,
    show (4294967295 + 512 - 1) / 512 = 8388608 from rfl] at hl
  simp only [List.length_nil, List.length_map, List.length_range] at hl
  omega

/-- Claim C6, amended.  Provided the guint32 chunk-count expression does not
    wrap (`size + MAX - 1 < 2^32`), read-memory and write-memory split the
    range into `ceil(size / MAX)` chunks, issuing sequential exchanges at
    `(address + i*MAX) mod 2^64` with length `min MAX (size - i*MAX)`; when
    every chunk succeeds all chunks are issued in order and the operation
    succeeds, and on the first chunk failure the operation stops right after
    the failing chunk and returns that chunk error
    (src/arvgvdevice.c:356-390). -/
theorem C6_chunked_block_io (oracleR : Nat → ChunkOutcome)
    (oracleW : Nat → Option ArvDeviceError)
    (address size dmax : Nat) (buffer : List Nat)
    (hd : 0 < dmax) (hnw : size + dmax - 1 < 4294967296) :
    chunk_count size dmax = (size + dmax - 1) / dmax ∧
    ((∀ k, k < (size + dmax - 1) / dmax → ∃ data, oracleR k = .ok data) →
      (arv_gv_device_read_memory oracleR address size dmax buffer).success
          = true ∧
      (arv_gv_device_read_memory oracleR address size dmax buffer).error_out
          = none ∧
      (arv_gv_device_read_memory oracleR address size dmax buffer).issued
          = chunk_list address size dmax ((size + dmax - 1) / dmax)) ∧
    (∀ j e, j < (size + dmax - 1) / dmax →
      (∀ k, k < j → ∃ data, oracleR k = .ok data) → oracleR j = .fail e →
      (arv_gv_device_read_memory oracleR address size dmax buffer).success
          = false ∧
      (arv_gv_device_read_memory oracleR address size dmax buffer).error_out
          = some e ∧
      (arv_gv_device_read_memory oracleR address size dmax buffer).issued
          = chunk_list address size dmax (j + 1)) ∧
    ((∀ k, k < (size + dmax - 1) / dmax → oracleW k = none) →
      arv_gv_device_write_memory oracleW address size dmax buffer =
        ⟨true, buffer, none,
          chunk_list address size dmax ((size + dmax - 1) / dmax)⟩) ∧
    (∀ j e, j < (size + dmax - 1) / dmax →
      (∀ k, k < j → oracleW k = none) → oracleW j = some e →
      arv_gv_device_write_memory oracleW address size dmax buffer =
        ⟨false, buffer, some e, chunk_list address size dmax (j + 1)⟩) := by
  have hcc : chunk_count size dmax = (size + dmax - 1) / dmax := by
    unfold chunk_count
    rw [Nat.mod_eq_of_lt hnw]
  refine ⟨hcc, ?_, ?_, ?_, ?_⟩
  · intro h
    have := read_memory_loop_ok oracleR address size dmax
      (chunk_count size dmax) 0 buffer [] (by
        intro k hk
        rw [Nat.zero_add]
        exact h k (by rwa [hcc] at hk))
    rw [arv_gv_device_read_memory]
    rw [chunk_list_eq_seg]
    refine ⟨this.1, this.2.1, ?_⟩
    rw [this.2.2, hcc, List.nil_append]
  · intro j e hj hok hfail
    have := read_memory_loop_fail oracleR address size dmax j
      (chunk_count size dmax) 0 buffer [] e (by
        intro k hk
        rw [Nat.zero_add]
        exact hok k hk) (by rw [Nat.zero_add]; exact hfail) (by rwa [hcc])
    rw [arv_gv_device_read_memory]
    rw [chunk_list_eq_seg]
    exact ⟨this.1, this.2.1, by rw [this.2.2, List.nil_append]⟩
  · intro h
    rw [arv_gv_device_write_memory, write_memory_go_ok oracleW address size dmax
      buffer (chunk_count size dmax) 0 [] (by
        intro k hk
        rw [Nat.zero_add]
        exact h k (by rwa [hcc] at hk))]
    rw [chunk_list_eq_seg, hcc, List.nil_append]
  · intro j e hj hok hfail
    rw [arv_gv_device_write_memory, write_memory_go_fail oracleW address size
      dmax buffer j (chunk_count size dmax) 0 [] e (by
        intro k hk
        rw [Nat.zero_add]
        exact hok k hk) (by rw [Nat.zero_add]; exact hfail) (by rwa [hcc])]
    rw [chunk_list_eq_seg, List.nil_append]

/-- Claim C6, witness: a 1030-byte read with `MAX = 512` issues chunks
    (0,512), (512,512), (1024,6) when all succeed, and a write failing at
    chunk 1 stops after two chunks with that error. -/
theorem C6_chunked_block_io_witness :
    ((∀ k, k < (1030 + 512 - 1) / 512 →
        ∃ data, (fun _ => ChunkOutcome.ok [1]) k = ChunkOutcome.ok data) →
      (arv_gv_device_read_memory (fun _ => ChunkOutcome.ok [1]) 100 1030 512
        (List.replicate 1030 9)).success = true ∧
      (arv_gv_device_read_memory (fun _ => ChunkOutcome.ok [1]) 100 1030 512
        (List.replicate 1030 9)).error_out = none ∧
      (arv_gv_device_read_memory (fun _ => ChunkOutcome.ok [1]) 100 1030 512
        (List.replicate 1030 9)).issued =
        chunk_list 100 1030 512 ((1030 + 512 - 1) / 512)) ∧
    arv_gv_device_write_memory
        (fun i => if i = 0 then none else some ArvDeviceError.timeoutError)
        100 1030 512 (List.replicate 1030 9) =
      ⟨false, List.replicate 1030 9, some ArvDeviceError.timeoutError,
        chunk_list 100 1030 512 2⟩ :=
  ⟨(C6_chunked_block_io (fun _ => ChunkOutcome.ok [1])
      (fun i => if i = 0 then none else some ArvDeviceError.timeoutError)
      100 1030 512 (List.replicate 1030 9) (by decide) (by decide)).2.1,
   (C6_chunked_block_io (fun _ => ChunkOutcome.ok [1])
      (fun i => if i = 0 then none else some ArvDeviceError.timeoutError)
      100 1030 512 (List.replicate 1030 9) (by decide) (by decide)).2.2.2.2 1
      ArvDeviceError.timeoutError (by decide)
      (by intro k hk; interval_cases k <;> rfl) rfl⟩



/-- Whatever frame the receive loop declares conclusive was classified
    conclusive. -/
theorem receive_loop_answer_conclusive (expected : GvcpAckCommand)
    (pid aSz : Nat) :
    ∀ (evs : List RecvEvent) (deadline now : Nat) (d : GvcpAckPacket),
      (receive_loop expected pid aSz deadline now evs).answer = some d →
      classify_ack expected pid aSz d = .conclusive := by
  intro evs
  induction evs with
  | nil =>
    intro deadline now d h
    simp [receive_loop] at h
  | cons e rest ih =>
    intro deadline now d h
    cases e with
    | timeout =>
      rw [receive_loop] at h
      split at h
      · exact ih _ _ _ h
      · simp at h
    | datagram d0 arrival =>
      rw [receive_loop] at h
      split at h
      · exact ih _ _ _ h
      · rename_i heq
        simp only at h
        rw [show d0 = d by simpa using h] at heq
        exact heq
      · split at h
        · exact ih _ _ _ h
        · simp at h
      · split at h
        · exact ih _ _ _ h
        · simp at h

/-- Whatever frame the retry loop declares conclusive was classified
    conclusive. -/
theorem retry_loop_answer_conclusive (expected : GvcpAckCommand)
    (pid aSz tmo : Nat) (sendOk : Nat → Bool) :
    ∀ (further idx now : Nat) (evs : List RecvEvent) (d : GvcpAckPacket),
      (retry_loop expected pid aSz tmo sendOk further idx now evs).answer
          = some d →
      classify_ack expected pid aSz d = .conclusive := by
  intro further
  induction further with
  | zero =>
    intro idx now evs d h
    rw [retry_loop] at h
    by_cases hs : sendOk idx = true
    · rw [if_pos hs] at h
      cases hans : (receive_loop expected pid aSz (now + tmo) now evs).answer with
      | some d0 =>
        simp only [hans] at h
        have hd : d0 = d := by simpa using h
        rw [hd] at hans
        exact receive_loop_answer_conclusive expected pid aSz evs _ _ _ hans
      | none => simp [hans] at h
    · rw [if_neg hs] at h
      simp at h
  | succ f ih =>
    intro idx now evs d h
    rw [retry_loop] at h
    by_cases hs : sendOk idx = true
    · rw [if_pos hs] at h
      cases hans : (receive_loop expected pid aSz (now + tmo) now evs).answer with
      | some d0 =>
        simp only [hans] at h
        have hd : d0 = d := by simpa using h
        rw [hd] at hans
        exact receive_loop_answer_conclusive expected pid aSz evs _ _ _ hans
      | none =>
        simp only [hans] at h
        exact ih _ _ _ _ h
    · rw [if_neg hs] at h
      exact ih _ _ _ _ h

/-- Spelled-out conclusive classification: header present, not a pending-ack,
    command and identifier matching, and either an error-kind packet type or a
    normal ack of at least the expected size. -/
theorem classify_ack_conclusive_iff (expected : GvcpAckCommand)
    (pid aSz : Nat) (d : GvcpAckPacket) :
    classify_ack expected pid aSz d = .conclusive ↔
      (headerSize ≤ d.count ∧
       ¬(d.command = .pendingAck ∧ pending_ack_size ≤ d.count) ∧
       d.command = expected ∧ d.packetId = pid ∧
       ((d.packetType = .error ∨ d.packetType = .unknownError) ∨
        (d.packetType = .ack ∧ aSz ≤ d.count))) := by
  constructor
  · intro h
    unfold classify_ack at h
    split_ifs at h with h1 h2 h3 h4 h5
    · exact ⟨by omega, h2, h4.1, h4.2, Or.inl h3⟩
    · exact ⟨by omega, h2, h5.2.1, h5.2.2.1, Or.inr ⟨h5.1, h5.2.2.2⟩⟩
  · rintro ⟨hle, hnp, hcmd, hid, htype⟩
    unfold classify_ack
    rw [if_neg (by omega), if_neg hnp]
    rcases htype with herr | ⟨hack, hsz⟩
    · rw [if_pos herr, if_pos ⟨hcmd, hid⟩]
    · have hne : ¬(d.packetType = .error ∨ d.packetType = .unknownError) := by
        rintro (h | h) <;> rw [hack] at h <;> cases h
      rw [if_neg hne, if_pos ⟨hack, hcmd, hid, hsz⟩]

/-- A full-header, non-pending frame with wrong command, wrong identifier, or
    (for a normal ack) a truncated body is ignored. -/
theorem classify_ack_mismatch (expected : GvcpAckCommand) (pid aSz : Nat)
    (d : GvcpAckPacket)
    (hle : headerSize ≤ d.count)
    (hnp : ¬(d.command = .pendingAck ∧ pending_ack_size ≤ d.count))
    (hmm : d.command ≠ expected ∨ d.packetId ≠ pid ∨
      (d.packetType = .ack ∧ d.count < aSz)) :
    classify_ack expected pid aSz d = .ignored := by
  unfold classify_ack
  rw [if_neg (by omega), if_neg hnp]
  by_cases herr : d.packetType = .error ∨ d.packetType = .unknownError
  · rw [if_pos herr, if_neg]
    rintro ⟨hcmd, hid⟩
    rcases hmm with h | h | ⟨hack, -⟩
    · exact h hcmd
    · exact h hid
    · rcases herr with h2 | h2 <;> rw [hack] at h2 <;> cases h2
  · rw [if_neg herr, if_neg]
    rintro ⟨hack, hcmd, hid, hsz⟩
    rcases hmm with h | h | ⟨-, hlt⟩
    · exact h hcmd
    · exact h hid
    · omega

/-- The exchange result carries the retry-loop answer and send count
    unchanged whatever the outcome. -/
theorem send_cmd_and_receive_ack_fields (io : ArvGvDeviceIOData)
    (cmd : GvcpCommand) (size : Nat) (memInit : List Nat) (regInit : Nat)
    (env : ExchangeEnv) :
    (send_cmd_and_receive_ack io cmd size memInit regInit env).answer =
      (exchange_retry io cmd size env).answer ∧
    (send_cmd_and_receive_ack io cmd size memInit regInit env).n_sends =
      (exchange_retry io cmd size env).n_sends := by
  constructor <;>
    · simp only [send_cmd_and_receive_ack]
      split <;> rfl

/-- A frame classified pending continues the receive loop with the deadline
    reset to the reception time plus the timeout-extension field. -/
theorem receive_loop_pending_step (expected : GvcpAckCommand)
    (pid aSz deadline now arrival : Nat) (d : GvcpAckPacket)
    (rest : List RecvEvent)
    (hp : d.command = .pendingAck) (hsz : pending_ack_size ≤ d.count) :
    receive_loop expected pid aSz deadline now (.datagram d arrival :: rest) =
      receive_loop expected pid aSz
        ((now + min arrival (deadline - now)) +
          arv_gvcp_packet_get_pending_ack_timeout d)
        (now + min arrival (deadline - now)) rest := by
  have hcl : classify_ack expected pid aSz d = .pending := by
    unfold classify_ack
    have h12 : pending_ack_size = 12 := rfl
    have h8 : headerSize = 8 := rfl
    rw [if_neg (by omega), if_pos ⟨hp, hsz⟩]
  simp only [receive_loop, hcl]

/-- A run of pending-ack frames keeps the receive loop alive: the loop reaches
    the events after them, inside the same transmission attempt. -/
theorem receive_loop_pending_prefix (expected : GvcpAckCommand)
    (pid aSz : Nat) :
    ∀ (ps : List RecvEvent),
      (∀ e ∈ ps, ∃ d arrival, e = .datagram d arrival ∧
        d.command = .pendingAck ∧ pending_ack_size ≤ d.count) →
      ∀ (rest : List RecvEvent) (deadline now : Nat),
        ∃ dl2 n2, receive_loop expected pid aSz deadline now (ps ++ rest) =
          receive_loop expected pid aSz dl2 n2 rest := by
  intro ps
  induction ps with
  | nil =>
    intro _ rest deadline now
    exact ⟨deadline, now, rfl⟩
  | cons e tail ih =>
    intro h rest deadline now
    obtain ⟨d, arrival, rfl, hp, hsz⟩ := h e (List.mem_cons_self e tail)
    rw [List.cons_append,
      receive_loop_pending_step expected pid aSz deadline now arrival d
        (tail ++ rest) hp hsz]
    exact ih (fun x hx => h x (List.mem_cons_of_mem _ hx)) rest _ _


/-- Claim C5.  A received frame resolves the exchange only if its command is
    the expected ack command and its packet identifier is the current request
    identifier, and, for normal acks, its size reaches the expected ack size
    (first conjunct, for whole exchanges); a full-header non-pending frame with
    wrong command, wrong identifier, or a truncated normal-ack body is
    classified ignored (second conjunct); an ignored frame never resolves the
    exchange: the receive loop simply continues, under the unchanged deadline,
    when time remains (third conjunct).  (src/arvgvdevice.c:235-263.) -/
theorem C5_ack_matching :
    (∀ (io : ArvGvDeviceIOData) (cmd : GvcpCommand) (size : Nat)
        (memInit : List Nat) (regInit : Nat) (env : ExchangeEnv)
        (d : GvcpAckPacket),
      (send_cmd_and_receive_ack io cmd size memInit regInit env).answer
          = some d →
      d.command = expected_ack_command cmd ∧
      d.packetId = arv_gvcp_next_packet_id io.packet_id ∧
      ((d.packetType = .error ∨ d.packetType = .unknownError) ∨
       (d.packetType = .ack ∧ expected_ack_size cmd size ≤ d.count))) ∧
    (∀ (expected : GvcpAckCommand) (pid aSz : Nat) (d : GvcpAckPacket),
      headerSize ≤ d.count →
      ¬(d.command = .pendingAck ∧ pending_ack_size ≤ d.count) →
      (d.command ≠ expected ∨ d.packetId ≠ pid ∨
        (d.packetType = .ack ∧ d.count < aSz)) →
      classify_ack expected pid aSz d = .ignored) ∧
    (∀ (expected : GvcpAckCommand) (pid aSz deadline now arrival : Nat)
        (d : GvcpAckPacket) (rest : List RecvEvent),
      classify_ack expected pid aSz d = .ignored →
      receive_loop expected pid aSz deadline now
          (.datagram d arrival :: rest) =
        if 0 < deadline - now then
          receive_loop expected pid aSz deadline
            (now + min arrival (deadline - now)) rest
        else ⟨none, now + min arrival (deadline - now), rest⟩) := by
  refine ⟨?_, ?_, ?_⟩
  · intro io cmd size memInit regInit env d h
    rw [(send_cmd_and_receive_ack_fields io cmd size memInit regInit env).1] at h
    have hc := retry_loop_answer_conclusive (expected_ack_command cmd)
      (arv_gvcp_next_packet_id io.packet_id) (expected_ack_size cmd size)
      io.gvcp_timeout_ms env.sendOk (io.gvcp_n_retries - 1) 0 env.start
      env.events d h
    rw [classify_ack_conclusive_iff] at hc
    exact ⟨hc.2.2.1, hc.2.2.2.1, hc.2.2.2.2⟩
  · exact classify_ack_mismatch
  · intro expected pid aSz deadline now arrival d rest hcl
    simp only [receive_loop, hcl]

/-- Claim C5, witness: a matched register ack resolves the exchange and indeed
    matches; an ack with the wrong identifier is classified ignored and leaves
    the receive loop running. -/
theorem C5_ack_matching_witness :
    ((⟨.ack, 0, .readRegisterAck, 65301, 12, [0, 0, 0, 1]⟩ :
        GvcpAckPacket).command = expected_ack_command .readRegisterCmd ∧
      (⟨.ack, 0, .readRegisterAck, 65301, 12, [0, 0, 0, 1]⟩ :
        GvcpAckPacket).packetId = arv_gvcp_next_packet_id 65300 ∧
      (((⟨.ack, 0, .readRegisterAck, 65301, 12, [0, 0, 0, 1]⟩ :
          GvcpAckPacket).packetType = .error ∨
        (⟨.ack, 0, .readRegisterAck, 65301, 12, [0, 0, 0, 1]⟩ :
          GvcpAckPacket).packetType = .unknownError) ∨
       ((⟨.ack, 0, .readRegisterAck, 65301, 12, [0, 0, 0, 1]⟩ :
          GvcpAckPacket).packetType = .ack ∧
        expected_ack_size .readRegisterCmd 4 ≤
          (⟨.ack, 0, .readRegisterAck, 65301, 12, [0, 0, 0, 1]⟩ :
            GvcpAckPacket).count))) ∧
    classify_ack .readRegisterAck 65301 12
      ⟨.ack, 0, .readRegisterAck, 1, 12, []⟩ = .ignored ∧
    receive_loop .readRegisterAck 65301 12 500 0
        [.datagram ⟨.ack, 0, .readRegisterAck, 1, 12, []⟩ 0] =
      (if 0 < 500 - 0 then
        receive_loop .readRegisterAck 65301 12 500 (0 + min 0 (500 - 0)) []
      else ⟨none, 0 + min 0 (500 - 0), []⟩) :=
  ⟨C5_ack_matching.1 ⟨65300, 6, 500⟩ .readRegisterCmd 4 [] 0
      ⟨fun _ => true, 0,
        [.datagram ⟨.ack, 0, .readRegisterAck, 65301, 12, [0, 0, 0, 1]⟩ 0]⟩
      ⟨.ack, 0, .readRegisterAck, 65301, 12, [0, 0, 0, 1]⟩ (by decide),
   C5_ack_matching.2.1 .readRegisterAck 65301 12
      ⟨.ack, 0, .readRegisterAck, 1, 12, []⟩ (by decide) (by decide)
      (by decide),
   C5_ack_matching.2.2 .readRegisterAck 65301 12 500 0 0
      ⟨.ack, 0, .readRegisterAck, 1, 12, []⟩ [] (by decide)⟩

/-- When the first transmission goes out and its receive loop finds a
    conclusive frame, the retry loop stops at one send. -/
theorem retry_loop_first_send_conclusive (expected : GvcpAckCommand)
    (pid aSz tmo : Nat) (sendOk : Nat → Bool) (further idx now : Nat)
    (evs : List RecvEvent) (d : GvcpAckPacket)
    (hs : sendOk idx = true)
    (hans : (receive_loop expected pid aSz (now + tmo) now evs).answer
      = some d) :
    retry_loop expected pid aSz tmo sendOk further idx now evs =
      ⟨some d, idx + 1,
        (receive_loop expected pid aSz (now + tmo) now evs).now,
        (receive_loop expected pid aSz (now + tmo) now evs).rest⟩ := by
  cases further with
  | zero =>
    rw [retry_loop, if_pos hs]
    simp only [hans]
  | succ f =>
    rw [retry_loop, if_pos hs]
    simp only [hans]

/-- Claim C4.  A frame carrying the pending-ack command code with at least the
    minimum pending-ack size resets the deadline to the reception time plus
    the frame timeout-extension field (milliseconds) and continues the receive
    loop (first conjunct); any run of such frames keeps the loop inside the
    same transmission attempt (second conjunct); an exchange whose trace is
    pending-acks followed by a conclusive frame performs exactly one
    transmission, so the pending-acks advance no retry counter
    (third conjunct).  (src/arvgvdevice.c:225-234, 263, 289-290.) -/
theorem C4_pending_ack :
    (∀ (expected : GvcpAckCommand) (pid aSz deadline now arrival : Nat)
        (d : GvcpAckPacket) (rest : List RecvEvent),
      d.command = .pendingAck → pending_ack_size ≤ d.count →
      receive_loop expected pid aSz deadline now
          (.datagram d arrival :: rest) =
        receive_loop expected pid aSz
          ((now + min arrival (deadline - now)) +
            arv_gvcp_packet_get_pending_ack_timeout d)
          (now + min arrival (deadline - now)) rest) ∧
    (∀ (expected : GvcpAckCommand) (pid aSz : Nat) (ps rest : List RecvEvent)
        (deadline now : Nat),
      (∀ e ∈ ps, ∃ d arrival, e = .datagram d arrival ∧
        d.command = .pendingAck ∧ pending_ack_size ≤ d.count) →
      ∃ dl2 n2, receive_loop expected pid aSz deadline now (ps ++ rest) =
        receive_loop expected pid aSz dl2 n2 rest) ∧
    (∀ (io : ArvGvDeviceIOData) (cmd : GvcpCommand) (size : Nat)
        (memInit : List Nat) (regInit : Nat) (env : ExchangeEnv)
        (ps : List RecvEvent) (d : GvcpAckPacket) (arrival : Nat),
      env.events = ps ++ [.datagram d arrival] →
      env.sendOk 0 = true →
      (∀ e ∈ ps, ∃ d2 a2, e = .datagram d2 a2 ∧
        d2.command = .pendingAck ∧ pending_ack_size ≤ d2.count) →
      classify_ack (expected_ack_command cmd)
        (arv_gvcp_next_packet_id io.packet_id) (expected_ack_size cmd size) d
          = .conclusive →
      (send_cmd_and_receive_ack io cmd size memInit regInit env).n_sends
          = 1) := by
  refine ⟨?_, ?_, ?_⟩
  · intro expected pid aSz deadline now arrival d rest hp hsz
    exact receive_loop_pending_step expected pid aSz deadline now arrival d
      rest hp hsz
  · intro expected pid aSz ps rest deadline now h
    exact receive_loop_pending_prefix expected pid aSz ps h rest deadline now
  · intro io cmd size memInit regInit env ps d arrival hev hsend hps hcl
    rw [(send_cmd_and_receive_ack_fields io cmd size memInit regInit env).2]
    obtain ⟨dl2, n2, heq⟩ := receive_loop_pending_prefix
      (expected_ack_command cmd) (arv_gvcp_next_packet_id io.packet_id)
      (expected_ack_size cmd size) ps hps [.datagram d arrival]
      (env.start + io.gvcp_timeout_ms) env.start
    have hans : (receive_loop (expected_ack_command cmd)
        (arv_gvcp_next_packet_id io.packet_id) (expected_ack_size cmd size)
        (env.start + io.gvcp_timeout_ms) env.start env.events).answer
          = some d := by
      rw [hev, heq]
      simp only [receive_loop, hcl]
    unfold exchange_retry
    rw [retry_loop_first_send_conclusive (expected_ack_command cmd)
      (arv_gvcp_next_packet_id io.packet_id) (expected_ack_size cmd size)
      io.gvcp_timeout_ms env.sendOk (io.gvcp_n_retries - 1) 0 env.start
      env.events d hsend hans]

/-- Claim C4, witness: one pending-ack with extension field 2000 ms resets the
    deadline exactly, keeps the loop alive, and an exchange receiving it
    before the real ack transmits exactly once. -/
theorem C4_pending_ack_witness :
    receive_loop .readRegisterAck 65301 12 500 0
        [.datagram ⟨.ack, 0, .pendingAck, 7, 12, [0, 0, 7, 208]⟩ 0,
         .datagram ⟨.ack, 0, .readRegisterAck, 65301, 12, [0, 0, 0, 5]⟩ 0] =
      receive_loop .readRegisterAck 65301 12
        ((0 + min 0 (500 - 0)) + arv_gvcp_packet_get_pending_ack_timeout
          ⟨.ack, 0, .pendingAck, 7, 12, [0, 0, 7, 208]⟩)
        (0 + min 0 (500 - 0))
        [.datagram ⟨.ack, 0, .readRegisterAck, 65301, 12, [0, 0, 0, 5]⟩ 0] ∧
    (∃ dl2 n2, receive_loop .readRegisterAck 65301 12 500 0
        ([.datagram ⟨.ack, 0, .pendingAck, 7, 12, [0, 0, 7, 208]⟩ 0] ++
          [.datagram ⟨.ack, 0, .readRegisterAck, 65301, 12, [0, 0, 0, 5]⟩ 0]) =
      receive_loop .readRegisterAck 65301 12 dl2 n2
        [.datagram ⟨.ack, 0, .readRegisterAck, 65301, 12, [0, 0, 0, 5]⟩ 0]) ∧
    (send_cmd_and_receive_ack ⟨65300, 6, 500⟩ .readRegisterCmd 4 [] 0
      ⟨fun _ => true, 0,
        [.datagram ⟨.ack, 0, .pendingAck, 7, 12, [0, 0, 7, 208]⟩ 0,
         .datagram ⟨.ack, 0, .readRegisterAck, 65301, 12,
           [0, 0, 0, 5]⟩ 0]⟩).n_sends = 1 :=
  ⟨C4_pending_ack.1 .readRegisterAck 65301 12 500 0 0
      ⟨.ack, 0, .pendingAck, 7, 12, [0, 0, 7, 208]⟩
      [.datagram ⟨.ack, 0, .readRegisterAck, 65301, 12, [0, 0, 0, 5]⟩ 0]
      rfl (by decide),
   C4_pending_ack.2.1 .readRegisterAck 65301 12
      [.datagram ⟨.ack, 0, .pendingAck, 7, 12, [0, 0, 7, 208]⟩ 0]
      [.datagram ⟨.ack, 0, .readRegisterAck, 65301, 12, [0, 0, 0, 5]⟩ 0]
      500 0
      (by
        intro e he
        rw [List.mem_singleton] at he
        exact ⟨⟨.ack, 0, .pendingAck, 7, 12, [0, 0, 7, 208]⟩, 0, he, rfl,
          by decide⟩),
   C4_pending_ack.2.2 ⟨65300, 6, 500⟩ .readRegisterCmd 4 [] 0
      ⟨fun _ => true, 0,
        [.datagram ⟨.ack, 0, .pendingAck, 7, 12, [0, 0, 7, 208]⟩ 0,
         .datagram ⟨.ack, 0, .readRegisterAck, 65301, 12, [0, 0, 0, 5]⟩ 0]⟩
      [.datagram ⟨.ack, 0, .pendingAck, 7, 12, [0, 0, 7, 208]⟩ 0]
      ⟨.ack, 0, .readRegisterAck, 65301, 12, [0, 0, 0, 5]⟩ 0 rfl rfl
      (by
        intro e he
        rw [List.mem_singleton] at he
        exact ⟨⟨.ack, 0, .pendingAck, 7, 12, [0, 0, 7, 208]⟩, 0, he, rfl,
          by decide⟩)
      (by decide)⟩

/-- Claim C3.  When an exchange ultimately fails, a read-memory caller buffer
    is zero-filled over the full size and a read-register value is zeroed, and
    the error stored into an empty placeholder is protocol-error exactly when
    the conclusive frame was a matching error (or unknown-error) ack carrying
    nonzero error flags, and timeout exactly when no conclusive frame arrived
    within the retries (src/arvgvdevice.c:296-323). -/
theorem C3_failure_zeroing_and_error (io : ArvGvDeviceIOData)
    (cmd : GvcpCommand) (size : Nat) (memInit : List Nat) (regInit : Nat)
    (env : ExchangeEnv)
    (hfail : (send_cmd_and_receive_ack io cmd size memInit regInit env).success
      = false) :
    (cmd = .readMemoryCmd →
      (send_cmd_and_receive_ack io cmd size memInit regInit env).mem_out =
        List.replicate size 0) ∧
    (cmd = .readRegisterCmd →
      (send_cmd_and_receive_ack io cmd size memInit regInit env).reg_out
        = 0) ∧
    ((∃ f, (send_cmd_and_receive_ack io cmd size memInit regInit env).error_out
        = some (.protocolError f)) ↔
      (∃ d, (send_cmd_and_receive_ack io cmd size memInit regInit env).answer
          = some d ∧
        (d.packetType = .error ∨ d.packetType = .unknownError) ∧
        d.command = expected_ack_command cmd ∧
        d.packetId = arv_gvcp_next_packet_id io.packet_id ∧ d.flags ≠ 0)) ∧
    ((send_cmd_and_receive_ack io cmd size memInit regInit env).error_out
        = some .timeoutError ↔
      (send_cmd_and_receive_ack io cmd size memInit regInit env).answer
        = none) := by
  by_cases h : (exchange_retry io cmd size env).answer.isSome = true ∧
      ack_command_error (exchange_retry io cmd size env).answer = 0
  · exfalso
    have hs : (send_cmd_and_receive_ack io cmd size memInit regInit env).success
        = true := by
      simp only [send_cmd_and_receive_ack]
      rw [if_pos h]
    rw [hs] at hfail
    cases hfail
  · have hceq : send_cmd_and_receive_ack io cmd size memInit regInit env =
        ⟨false, (exchange_retry io cmd size env).answer,
          (if cmd = .readMemoryCmd then List.replicate size 0 else memInit),
          (if cmd = .readRegisterCmd then 0 else regInit),
          some (if ack_command_error (exchange_retry io cmd size env).answer
              ≠ 0 then
            .protocolError (ack_command_error
              (exchange_retry io cmd size env).answer)
          else .timeoutError),
          (exchange_retry io cmd size env).n_sends,
          arv_gvcp_next_packet_id io.packet_id⟩ := by
      simp only [send_cmd_and_receive_ack]
      rw [if_neg h]
    rw [hceq]
    cases hans : (exchange_retry io cmd size env).answer with
    | none =>
      refine ⟨fun hcmd => by simp [hcmd], fun hcmd => by simp [hcmd], ?_, ?_⟩
      · refine iff_of_false ?_ ?_
        · rintro ⟨f, hf⟩
          simp [ack_command_error] at hf
        · rintro ⟨d, hd, -⟩
          simp at hd
      · refine iff_of_true ?_ rfl
        simp [ack_command_error]
    | some d =>
      have hce : ack_command_error (some d) ≠ 0 := by
        intro h0
        exact h ⟨by rw [hans]; rfl, by rw [hans]; exact h0⟩
      have hcls := retry_loop_answer_conclusive (expected_ack_command cmd)
        (arv_gvcp_next_packet_id io.packet_id) (expected_ack_size cmd size)
        io.gvcp_timeout_ms env.sendOk (io.gvcp_n_retries - 1) 0 env.start
        env.events d hans
      rw [classify_ack_conclusive_iff] at hcls
      have herr : d.packetType = .error ∨ d.packetType = .unknownError := by
        by_contra hno
        apply hce
        simp [ack_command_error, hno]
      have hflags : d.flags ≠ 0 := by
        intro h0
        apply hce
        simp [ack_command_error, herr, h0]
      refine ⟨fun hcmd => by simp [hcmd], fun hcmd => by simp [hcmd], ?_, ?_⟩
      · refine iff_of_true ⟨ack_command_error (some d), ?_⟩
          ⟨d, rfl, herr, hcls.2.2.1, hcls.2.2.2.1, hflags⟩
        show some (if ack_command_error (some d) ≠ 0 then
            ArvDeviceError.protocolError (ack_command_error (some d))
          else ArvDeviceError.timeoutError) =
          some (ArvDeviceError.protocolError (ack_command_error (some d)))
        rw [if_pos hce]
      · refine iff_of_false ?_ ?_
        · show some (if ack_command_error (some d) ≠ 0 then
              ArvDeviceError.protocolError (ack_command_error (some d))
            else ArvDeviceError.timeoutError) =
            some ArvDeviceError.timeoutError → False
          rw [if_pos hce]
          intro hcontra
          simp at hcontra
        · intro hc
          simp at hc

/-- Claim C3, witness: a read-memory exchange that never receives a frame
    fails with the timeout error and a zero-filled buffer. -/
theorem C3_failure_zeroing_and_error_witness :
    ((GvcpCommand.readMemoryCmd = .readMemoryCmd →
      (send_cmd_and_receive_ack ⟨65300, 2, 500⟩ .readMemoryCmd 4 [9, 9, 9, 9] 7
        ⟨fun _ => true, 0, []⟩).mem_out = List.replicate 4 0) ∧
    (GvcpCommand.readMemoryCmd = .readRegisterCmd →
      (send_cmd_and_receive_ack ⟨65300, 2, 500⟩ .readMemoryCmd 4 [9, 9, 9, 9] 7
        ⟨fun _ => true, 0, []⟩).reg_out = 0) ∧
    ((∃ f, (send_cmd_and_receive_ack ⟨65300, 2, 500⟩ .readMemoryCmd 4
        [9, 9, 9, 9] 7 ⟨fun _ => true, 0, []⟩).error_out =
          some (.protocolError f)) ↔
      (∃ d, (send_cmd_and_receive_ack ⟨65300, 2, 500⟩ .readMemoryCmd 4
          [9, 9, 9, 9] 7 ⟨fun _ => true, 0, []⟩).answer = some d ∧
        (d.packetType = .error ∨ d.packetType = .unknownError) ∧
        d.command = expected_ack_command .readMemoryCmd ∧
        d.packetId = arv_gvcp_next_packet_id 65300 ∧ d.flags ≠ 0)) ∧
    ((send_cmd_and_receive_ack ⟨65300, 2, 500⟩ .readMemoryCmd 4 [9, 9, 9, 9] 7
        ⟨fun _ => true, 0, []⟩).error_out = some .timeoutError ↔
      (send_cmd_and_receive_ack ⟨65300, 2, 500⟩ .readMemoryCmd 4 [9, 9, 9, 9] 7
        ⟨fun _ => true, 0, []⟩).answer = none)) :=
  C3_failure_zeroing_and_error ⟨65300, 2, 500⟩ .readMemoryCmd 4 [9, 9, 9, 9] 7
    ⟨fun _ => true, 0, []⟩ (by decide)


/-- Appending a size above the working floor keeps the accepted list sorted. -/
theorem chain_append_le (acc : List Nat) (c mn : Nat)
    (hch : List.Chain' (· ≤ ·) acc) (hb : ∀ a ∈ acc, a ≤ mn) (hmc : mn ≤ c) :
    List.Chain' (· ≤ ·) (acc ++ [c]) := by
  rw [List.chain'_append]
  refine ⟨hch, List.chain'_singleton c, ?_⟩
  intro x hx y hy
  have hy2 : y = c := by
    have := hy
    simp at this
    omega
  obtain ⟨hne, hxe⟩ := List.mem_getLast?_eq_getLast hx
  have hxm : x ∈ acc := by
    rw [hxe]
    exact List.getLast_mem hne
  subst hy2
  exact le_trans (hb x hxm) hmc

/-- Invariant of the bisection loop (device readback echoing the written
    value): from a state whose floor, candidate and best size are within the
    original bounds and increment-aligned to the original floor, with a sorted
    accepted list below the floor, the loop returns a size within the original
    bounds, aligned to the original floor, and a sorted accepted list. -/
theorem auto_packet_size_loop_invariant (test : Nat → Bool)
    (readback : Nat → Nat) (hrb : ∀ v, readback v = v) (inc min0 max0 : Nat)
    (hinc : 1 ≤ inc) :
    ∀ (fuel min_size max_size packet_size current last : Nat)
      (acc : List Nat),
      min0 ≤ min_size → (min_size - min0) % inc = 0 → max_size ≤ max0 →
      min_size ≤ max_size →
      min0 ≤ packet_size → packet_size ≤ max0 →
      (packet_size - min0) % inc = 0 →
      min_size ≤ current → (current - min0) % inc = 0 →
      (current ≤ max_size ∨ max_size ≤ min_size + inc) →
      List.Chain' (· ≤ ·) acc → (∀ a ∈ acc, a ≤ min_size) →
      min0 ≤ (auto_packet_size_loop test readback inc fuel min_size max_size
          packet_size current last acc).1 ∧
      (auto_packet_size_loop test readback inc fuel min_size max_size
          packet_size current last acc).1 ≤ max0 ∧
      ((auto_packet_size_loop test readback inc fuel min_size max_size
          packet_size current last acc).1 - min0) % inc = 0 ∧
      List.Chain' (· ≤ ·) (auto_packet_size_loop test readback inc fuel
          min_size max_size packet_size current last acc).2 := by
  intro fuel
  induction fuel with
  | zero =>
    intro min_size max_size packet_size current last acc h1 h2 h3 h4 h5 h6 h7
      h8 h9 h10 h11 h12
    exact ⟨h5, h6, h7, h11⟩
  | succ n ih =>
    intro min_size max_size packet_size current last acc h1 h2 h3 h4 h5 h6 h7
      h8 h9 h10 h11 h12
    rw [auto_packet_size_loop]
    by_cases hg : current = last ∨ max_size ≤ min_size + inc
    · rw [if_pos hg]
      exact ⟨h5, h6, h7, h11⟩
    · rw [if_neg hg]
      push_neg at hg
      obtain ⟨hne, hlt⟩ := hg
      simp only [hrb]
      have hcm : current ≤ max_size := by
        rcases h10 with h | h
        · exact h
        · omega
      by_cases ht : test current = true
      · rw [if_pos ht]
        by_cases hm : current = max_size
        · rw [if_pos hm]
          refine ⟨le_trans h1 h8, le_trans hcm h3, h9, ?_⟩
          exact chain_append_le acc current min_size h11 h12 h8
        · rw [if_neg hm]
          have hdm : ((max_size - current) / 2 + 1) / inc * inc ≤
              (max_size - current) / 2 + 1 := Nat.div_mul_le_self _ _
          refine ih current max_size current
            (current + ((max_size - current) / 2 + 1) / inc * inc) current
            (acc ++ [current]) (le_trans h1 h8) h9 h3 hcm (le_trans h1 h8)
            (le_trans hcm h3) h9 (Nat.le_add_right _ _) ?_ ?_
            (chain_append_le acc current min_size h11 h12 h8) ?_
          · have hmin : min0 ≤ current := le_trans h1 h8
            have heq : current + ((max_size - current) / 2 + 1) / inc * inc
                - min0 = (current - min0) +
                  ((max_size - current) / 2 + 1) / inc * inc := by
              generalize ((max_size - current) / 2 + 1) / inc * inc = t
              omega
            rw [heq, Nat.add_mul_mod_self_right]
            exact h9
          · generalize hk : ((max_size - current) / 2 + 1) / inc * inc = t
              at hdm ⊢
            omega
          · intro a ha
            rw [List.mem_append] at ha
            rcases ha with ha | ha
            · exact le_trans (h12 a ha) h8
            · rw [List.mem_singleton] at ha
              omega
      · rw [if_neg ht]
        have hdm : ((current - min_size) / 2 + 1) / inc * inc ≤
            (current - min_size) / 2 + 1 := Nat.div_mul_le_self _ _
        refine ih min_size current packet_size
          (min_size + ((current - min_size) / 2 + 1) / inc * inc) current acc
          h1 h2 (le_trans hcm h3) h8 h5 h6 h7 (Nat.le_add_right _ _) ?_ ?_
          h11 h12
        · have heq : min_size + ((current - min_size) / 2 + 1) / inc * inc
              - min0 = (min_size - min0) +
                ((current - min_size) / 2 + 1) / inc * inc := by
            generalize ((current - min_size) / 2 + 1) / inc * inc = t
            omega
          rw [heq, Nat.add_mul_mod_self_right]
          exact h2
        · generalize hk : ((current - min_size) / 2 + 1) / inc * inc = t
            at hdm ⊢
          omega

/-- Claim C8, counterexample.  With clamped bounds [576, 9000], increment 4
    and a configured packet size of 1001 (not increment-aligned), a probe in
    which every test packet is lost returns 1001: the final size violates
    `(s - min_size) mod inc = 0`. -/
theorem C8_counterexample :
    (auto_packet_size ⟨true, 4, 1001, 576, 9000, 576, 9000, fun _ => false,
      fun v => v⟩ false 64).1 = 1001 ∧
    ¬ (((auto_packet_size ⟨true, 4, 1001, 576, 9000, 576, 9000,
      fun _ => false, fun v => v⟩ false 64).1 - max 576 576) % 4 = 0) := by
  exact ⟨rfl, by decide⟩

/-- Claim C8, amended.  Provided the device readback echoes the written size
    and the initially configured packet size lies within the clamped bounds
    and is increment-aligned with the clamped minimum, the accepted sizes of
    the probe form a non-decreasing sequence and the final size s satisfies
    `min_size ≤ s ≤ max_size` and `(s - min_size) mod inc = 0`
    (src/arvgvdevice.c:652-751). -/
theorem C8_probe_monotone_bounds (env : ProbePacketEnv) (exit_early : Bool)
    (fuel : Nat)
    (hrb : ∀ v, env.readback v = v)
    (hlo : max env.gvsp_min env.bound_min ≤ env.current_value)
    (hhi : env.current_value ≤ min env.gvsp_max env.bound_max)
    (halign : (env.current_value - max env.gvsp_min env.bound_min) %
      (if env.inc_feature < 1 then 1 else env.inc_feature) = 0) :
    List.Chain' (· ≤ ·) (auto_packet_size env exit_early fuel).2 ∧
    max env.gvsp_min env.bound_min ≤ (auto_packet_size env exit_early fuel).1 ∧
    (auto_packet_size env exit_early fuel).1 ≤
      min env.gvsp_max env.bound_max ∧
    ((auto_packet_size env exit_early fuel).1 -
        max env.gvsp_min env.bound_min) %
      (if env.inc_feature < 1 then 1 else env.inc_feature) = 0 := by
  have hinc : 1 ≤ (if env.inc_feature < 1 then 1 else env.inc_feature) := by
    by_cases h : env.inc_feature < 1
    · rw [if_pos h]
    · rw [if_neg h]
      omega
  unfold auto_packet_size
  by_cases hft : env.has_fire_test = true
  · rw [hft]
    simp only [if_true]
    by_cases hinv : min env.gvsp_max env.bound_max <
        max env.gvsp_min env.bound_min ∨
        min env.gvsp_max env.bound_max - max env.gvsp_min env.bound_min <
          (if env.inc_feature < 1 then 1 else env.inc_feature)
    · rw [if_pos hinv]
      exact ⟨List.chain'_nil, hlo, hhi, halign⟩
    · rw [if_neg hinv]
      by_cases hpre : (env.test env.current_value && exit_early) = true
      · rw [if_pos hpre]
        exact ⟨List.chain'_nil, hlo, hhi, halign⟩
      · rw [if_neg hpre]
        obtain ⟨a, b, c, d⟩ := auto_packet_size_loop_invariant env.test
          env.readback hrb (if env.inc_feature < 1 then 1 else env.inc_feature)
          (max env.gvsp_min env.bound_min) (min env.gvsp_max env.bound_max)
          hinc fuel (max env.gvsp_min env.bound_min)
          (min env.gvsp_max env.bound_max) env.current_value
          env.current_value 0 []
          (le_refl _) (by rw [Nat.sub_self, Nat.zero_mod]) (le_refl _)
          (le_trans hlo hhi) hlo hhi halign hlo halign (Or.inl hhi)
          List.chain'_nil (by intro a ha; cases ha)
        exact ⟨d, a, b, c⟩
  · rw [if_neg hft]
    exact ⟨List.chain'_nil, hlo, hhi, halign⟩

/-- Claim C8, witness: a probe over bounds [576, 9000] with increment 4,
    initial size 576 and a path accepting sizes up to 1500. -/
theorem C8_probe_monotone_bounds_witness :
    List.Chain' (· ≤ ·) (auto_packet_size ⟨true, 4, 576, 576, 9000, 576, 9000,
      fun s => decide (s ≤ 1500), fun v => v⟩ false 64).2 ∧
    max 576 576 ≤ (auto_packet_size ⟨true, 4, 576, 576, 9000, 576, 9000,
      fun s => decide (s ≤ 1500), fun v => v⟩ false 64).1 ∧
    (auto_packet_size ⟨true, 4, 576, 576, 9000, 576, 9000,
      fun s => decide (s ≤ 1500), fun v => v⟩ false 64).1 ≤ min 9000 9000 ∧
    ((auto_packet_size ⟨true, 4, 576, 576, 9000, 576, 9000,
        fun s => decide (s ≤ 1500), fun v => v⟩ false 64).1 - max 576 576) %
      (if (4 : Nat) < 1 then 1 else 4) = 0 :=
  C8_probe_monotone_bounds ⟨true, 4, 576, 576, 9000, 576, 9000,
    fun s => decide (s ≤ 1500), fun v => v⟩ false 64 (fun _ => rfl)
    (by decide) (by decide) (by decide)

end ArvGv